import Mathlib


/-!
Shallow embedding of the input pipeline of the cure-pro-wireless split
keyboard firmware (the secondary half: `IS_MASTER = 0` in `config.h`).

Embedded modules:
* `kb_mgt.c` — HID report management, layer management, the tap-hold key
  processor and the split-keyboard communication events;
* `kb_matrix.c` — the per-cell debounce logic of `matrix_scan`;
* `heartbeat.c` — the secondary-half heartbeat poll cycle;
* `power_mgmt.c` — the adaptive power-mode scheduler;
* `espnow.c` — the receive-processing worker (`espnow_task`), secondary side;
* `keymap.c` — the static per-layer key table (left/secondary side).

Machine integers are modelled as `Nat` with explicit wrap-around
(`u32sub`, `u64sub`) where the C code performs unsigned subtraction.
-/

namespace Cure

-- ===========================================================================
-- Definitions (embedded from the source)
-- ===========================================================================

def MATRIX_ROW : Nat := 5

def MATRIX_COL : Nat := 6

def MAX_LAYERS : Nat := 3

def DEFAULT_LAYER : Nat := 0

def DEFAULT_TIMEOUT_MS : Nat := 120

def HID_MAX_KEYS_IN_REPORT : Nat := 6

def HID_KEY_SHIFT_LAST_IDX : Nat := 5

def HID_MOD_LEFT_SHIFT : Nat := 2

def HEARTBEAT_INTERVAL_MS : Nat := 30000

def HEARTBEAT_TIMEOUT_MS : Nat := 10000

def HEARTBEAT_STABLE_MS : Nat := 1000

/-- Constant 2^32, the modulus of `uint32_t` arithmetic. -/
def U32 : Nat := 4294967296

/-- Constant 2^64, the modulus of `uint64_t` arithmetic. -/
def U64 : Nat := 18446744073709551616

/-- Wrap-around `uint32_t` subtraction `a - b`. -/
def u32sub (a b : Nat) : Nat := (a % U32 + (U32 - b % U32)) % U32

/-- Wrap-around `uint64_t` subtraction `a - b`. -/
def u64sub (a b : Nat) : Nat := (a % U64 + (U64 - b % U64)) % U64

/-- The value stored by `x &= ~mask` on a `uint8_t`: bitwise complement of the
low byte of `mask`. -/
def byteNot (m : Nat) : Nat := 255 - m % 256

/-- The C `key_definition_t`: tagged union of key variants.  The C `tap_timeout_ms`
fields are carried inside the tap-hold variants. -/
inductive KeyDef where
  | normal (keycode : Nat)
  | modifier (mask : Nat)
  | shifted (keycode : Nat)
  | layerTap (tapKey layer tapTimeoutMs : Nat)
  | modTap (tapKey holdMask tapTimeoutMs : Nat)
  | layerMomentary (layer : Nat)
  | layerToggle (layer : Nat)
  | consumer (usage : Nat)
  | macroKey (id : Nat)
  | transparent
  deriving Repr, DecidableEq

/-- The C `key_def_t empty_key = {0}`: type 0 is `KEY_TYPE_NORMAL`, keycode 0. -/
def emptyKey : KeyDef := KeyDef.normal 0

inductive Result where
  | success
  | reportFull
  deriving Repr, DecidableEq

/-- The C `kb_mgt_hid_key_report_t`: modifier byte plus six key slots. -/
structure HidKeyReport where
  modifiers : Nat
  keys : List Nat
  deriving Repr, DecidableEq

def emptyKeys : List Nat := [0, 0, 0, 0, 0, 0]

def emptyReport : HidKeyReport := { modifiers := 0, keys := emptyKeys }

/-- Slot search of `hid_add_key_unsafe`: put `k` in the first zero slot,
report-full otherwise. -/
def addKeySlots (k : Nat) : List Nat → List Nat × Result
  | [] => ([], Result.reportFull)
  | x :: xs =>
      if x = 0 then (k :: xs, Result.success)
      else
        let r := addKeySlots k xs
        (x :: r.1, r.2)

/-- Slot removal of `hid_remove_key_unsafe`: delete the first slot equal to
`k` and shift the remaining slots down, zero-filling the last slot. -/
def removeKeySlots (k : Nat) : List Nat → List Nat
  | [] => []
  | x :: xs => if x = k then xs ++ [0] else x :: removeKeySlots k xs

/-- Embeds `hid_add_key_unsafe` acting on a whole report. -/
def hid_add_key (r : HidKeyReport) (k : Nat) : HidKeyReport × Result :=
  let p := addKeySlots k r.keys
  ({ r with keys := p.1 }, p.2)

/-- Embeds `hid_remove_key_unsafe` acting on a whole report. -/
def hid_remove_key (r : HidKeyReport) (k : Nat) : HidKeyReport :=
  { r with keys := removeKeySlots k r.keys }

/-- Embeds `hid_set_modifier_unsafe`: `modifiers |= m`. -/
def hid_set_modifier (r : HidKeyReport) (m : Nat) : HidKeyReport :=
  { r with modifiers := Nat.lor r.modifiers m }

/-- Embeds `hid_clear_modifier_unsafe`: `modifiers &= ~m`. -/
def hid_clear_modifier (r : HidKeyReport) (m : Nat) : HidKeyReport :=
  { r with modifiers := Nat.land r.modifiers (byteNot m) }

/-- The static `keymaps[MAX_LAYERS][MATRIX_ROW][MATRIX_COL]` table of the
secondary (left) half, with the HID usage values of `hid_gatt_svr_svc.h`
substituted for the `KC_*` macros. -/
def keymaps : List (List (List KeyDef)) :=
  [ -- Layer 0 - Base layer Left Side
    [ [KeyDef.normal 0x2E, KeyDef.normal 0x1E, KeyDef.normal 0x1F,
       KeyDef.normal 0x20, KeyDef.normal 0x21, KeyDef.normal 0x22],
      [KeyDef.normal 0x29, KeyDef.normal 0x14, KeyDef.normal 0x1A,
       KeyDef.normal 0x08, KeyDef.normal 0x15, KeyDef.normal 0x17],
      [KeyDef.modifier 0x01, KeyDef.normal 0x04, KeyDef.normal 0x16,
       KeyDef.normal 0x07, KeyDef.normal 0x09, KeyDef.normal 0x0A],
      [KeyDef.modifier 0x04, KeyDef.normal 0x1D, KeyDef.normal 0x1B,
       KeyDef.normal 0x06, KeyDef.normal 0x19, KeyDef.normal 0x05],
      [KeyDef.normal 0x00, KeyDef.normal 0x00, KeyDef.normal 0x00,
       KeyDef.normal 0x00, KeyDef.layerTap 0x2B 1 100,
       KeyDef.modTap 0x2C 0x08 100] ],
    -- Layer 1 - Function Symbol layer Left side
    [ [KeyDef.transparent, KeyDef.normal 0x3B, KeyDef.normal 0x3C,
       KeyDef.normal 0x3D, KeyDef.normal 0x3E, KeyDef.normal 0x3F],
      [KeyDef.transparent, KeyDef.normal 0x35, KeyDef.shifted 0x37,
       KeyDef.shifted 0x36, KeyDef.normal 0x2D, KeyDef.shifted 0x31],
      [KeyDef.transparent, KeyDef.shifted 0x1E, KeyDef.shifted 0x25,
       KeyDef.normal 0x38, KeyDef.normal 0x2E, KeyDef.shifted 0x24],
      [KeyDef.transparent, KeyDef.shifted 0x35, KeyDef.shifted 0x2E,
       KeyDef.normal 0x2F, KeyDef.normal 0x30, KeyDef.shifted 0x22],
      [KeyDef.normal 0x00, KeyDef.normal 0x00, KeyDef.normal 0x00,
       KeyDef.normal 0x00, KeyDef.transparent, KeyDef.transparent] ],
    -- Layer 2 - Media Navigation layer Left side
    [ [KeyDef.transparent, KeyDef.normal 0x3B, KeyDef.normal 0x3C,
       KeyDef.normal 0x3D, KeyDef.normal 0x3E, KeyDef.normal 0x3F],
      [KeyDef.transparent, KeyDef.consumer 0x6F, KeyDef.consumer 0xE2,
       KeyDef.consumer 0xEA, KeyDef.consumer 0xE9, KeyDef.normal 0x00],
      [KeyDef.transparent, KeyDef.consumer 0x70, KeyDef.consumer 0xB6,
       KeyDef.consumer 0xB5, KeyDef.consumer 0xCD, KeyDef.consumer 0xB7],
      [KeyDef.transparent, KeyDef.normal 0x00, KeyDef.normal 0x00,
       KeyDef.normal 0x00, KeyDef.normal 0x00, KeyDef.normal 0x00],
      [KeyDef.normal 0x00, KeyDef.normal 0x00, KeyDef.normal 0x00,
       KeyDef.transparent, KeyDef.transparent, KeyDef.transparent] ] ]

/-- Embeds `keymap_get_key`: bounds-checked lookup defaulting to `NORM_KEY(KC_NO)`. -/
def keymap_get_key (layer row col : Nat) : KeyDef :=
  if layer ≥ MAX_LAYERS ∨ row ≥ MATRIX_ROW ∨ col ≥ MATRIX_COL then
    KeyDef.normal 0
  else
    (((keymaps.getD layer []).getD row []).getD col (KeyDef.normal 0))

/-- The C `proc_state_t`: per-cell timers, pending keys and flags, plus the layer
state.  Per-cell arrays are modelled as functions on (row, col). -/
structure ProcState where
  current_layer : Nat
  layer_tap_timer : Nat → Nat → Nat
  mod_tap_timer : Nat → Nat → Nat
  pressed_keys : Nat → Nat → KeyDef
  key_is_tapped : Nat → Nat → Bool
  layer_momentary_active : Nat → Bool
  pressed_key_active : Nat → Nat → Bool
  key_tap_timeout : Nat → Nat → Nat

/-- Point update of a (row, col)-indexed array. -/
def upd2 {α : Type} (f : Nat → Nat → α) (r c : Nat) (v : α) : Nat → Nat → α :=
  fun r' c' => if r' = r ∧ c' = c then v else f r' c'

/-- Point update of a layer-indexed array. -/
def upd1 {α : Type} (f : Nat → α) (i : Nat) (v : α) : Nat → α :=
  fun i' => if i' = i then v else f i'

/-- The whole mutable state of `kb_mgt.c`: processor state plus the two
live reports. -/
structure KbState where
  proc : ProcState
  keyReport : HidKeyReport
  consumerUsage : Nat

/-- State after `proc_init` / `hid_init` / `layer_init`: everything zeroed,
base layer `DEFAULT_LAYER`. -/
def initState : KbState :=
  { proc :=
      { current_layer := DEFAULT_LAYER
        layer_tap_timer := fun _ _ => 0
        mod_tap_timer := fun _ _ => 0
        pressed_keys := fun _ _ => emptyKey
        key_is_tapped := fun _ _ => false
        layer_momentary_active := fun _ => false
        pressed_key_active := fun _ _ => false
        key_tap_timeout := fun _ _ => 0 }
    keyReport := emptyReport
    consumerUsage := 0 }

/-- The ESP-NOW communication events emitted by `comm_send_event` on the
secondary half, with their logical payloads. -/
inductive CommMsg where
  | tap (r : HidKeyReport)
  | briefTap (r : HidKeyReport)
  | layerSync (layer : Nat)
  | layerDesync (layer : Nat)
  | modSync (mask : Nat)
  | modDesync (mask : Nat)
  | consumer (usage : Nat)
  deriving Repr, DecidableEq

/-- Holds `true` iff the message is a `LAYER_SYNC` or `MOD_SYNC`. -/
def CommMsg.isSync : CommMsg → Bool
  | CommMsg.layerSync _ => true
  | CommMsg.modSync _ => true
  | _ => false

/-- Embeds `layer_activate_momentary_unsafe`: set the momentary flag, guarded by
`layer < MAX_LAYERS`. -/
def layer_activate_momentary (s : ProcState) (layer : Nat) : ProcState :=
  if layer < MAX_LAYERS then
    { s with layer_momentary_active := upd1 s.layer_momentary_active layer true }
  else s

/-- Embeds `layer_deactivate_momentary_unsafe`: clear the momentary flag, guarded by
`layer < MAX_LAYERS`. -/
def layer_deactivate_momentary (s : ProcState) (layer : Nat) : ProcState :=
  if layer < MAX_LAYERS then
    { s with layer_momentary_active := upd1 s.layer_momentary_active layer false }
  else s

/-- Embeds `layer_toggle_unsafe` on the secondary half: flip the base layer between
`DEFAULT_LAYER` and `layer`, then emit `LAYER_SYNC` with the new base layer. -/
def layer_toggle (s : ProcState) (layer : Nat) : ProcState × List CommMsg :=
  if layer < MAX_LAYERS then
    let newLayer := if s.current_layer = layer then DEFAULT_LAYER else layer
    ({ s with current_layer := newLayer }, [CommMsg.layerSync newLayer])
  else (s, [])

/-- Embeds `layer_is_momentary_active`: bounds-checked flag read. -/
def layer_is_momentary_active (s : ProcState) (layer : Nat) : Bool :=
  if layer < MAX_LAYERS then s.layer_momentary_active layer else false

/-- The descending scan `for (i = MAX_LAYERS - 1; i > 0; i--)` of
`kb_mgt_layer_get_active`: first momentary-active index in `i, i-1, ..., 1`,
else the base layer. -/
def highestMomentaryAux (s : ProcState) : Nat → Nat
  | 0 => s.current_layer
  | i + 1 =>
      if s.layer_momentary_active (i + 1) then i + 1
      else highestMomentaryAux s i

/-- Embeds `kb_mgt_layer_get_active`. -/
def kb_mgt_layer_get_active (s : ProcState) : Nat :=
  highestMomentaryAux s (MAX_LAYERS - 1)

/-- Embeds `kb_mgt_sync_layer` (remote `LAYER_SYNC` handler): momentary activation. -/
def kb_mgt_sync_layer (s : ProcState) (layer : Nat) : ProcState :=
  layer_activate_momentary s layer

/-- Embeds `kb_mgt_desync_layer` (remote `LAYER_DESYNC` handler). -/
def kb_mgt_desync_layer (s : ProcState) (layer : Nat) : ProcState :=
  layer_deactivate_momentary s layer

/-- Embeds `proc_store_pressed_key`: bounds-guarded store of the pending key. -/
def proc_store_pressed_key (s : ProcState) (row col : Nat) (key : KeyDef) :
    ProcState :=
  if row < MATRIX_ROW ∧ col < MATRIX_COL then
    { s with
        pressed_keys := upd2 s.pressed_keys row col key
        pressed_key_active := upd2 s.pressed_key_active row col true }
  else s

/-- Embeds `proc_get_stored_key`: bounds-guarded read, `empty_key` outside. -/
def proc_get_stored_key (s : ProcState) (row col : Nat) : KeyDef :=
  if row < MATRIX_ROW ∧ col < MATRIX_COL then s.pressed_keys row col
  else emptyKey

/-- Embeds `proc_has_stored_key`: bounds-guarded activity flag, `false` outside. -/
def proc_has_stored_key (s : ProcState) (row col : Nat) : Bool :=
  if row < MATRIX_ROW ∧ col < MATRIX_COL then s.pressed_key_active row col
  else false

/-- Embeds `proc_clear_stored_key`: bounds-guarded clear of the pending slot. -/
def proc_clear_stored_key (s : ProcState) (row col : Nat) : ProcState :=
  if row < MATRIX_ROW ∧ col < MATRIX_COL then
    { s with
        pressed_keys := upd2 s.pressed_keys row col emptyKey
        pressed_key_active := upd2 s.pressed_key_active row col false }
  else s

/-- The effective tap-hold timeout of a cell: the per-cell
`key_tap_timeout` entry, or `DEFAULT_TIMEOUT_MS` when that entry is zero. -/
def effTimeout (s : ProcState) (row col : Nat) : Nat :=
  if s.key_tap_timeout row col = 0 then DEFAULT_TIMEOUT_MS
  else s.key_tap_timeout row col

/-- Embeds `comm_handle_brief_tap` on the secondary half: add the tap key, send the
current report as a `BRIEF_TAP` message, then remove the tap key again. -/
def comm_handle_brief_tap (s : KbState) (keycode : Nat) :
    KbState × List CommMsg :=
  let r1 := (hid_add_key s.keyReport keycode).1
  let msg := CommMsg.briefTap r1
  let r2 := hid_remove_key r1 keycode
  ({ s with keyReport := r2 }, [msg])

/-- One cell of the tap-preferred scan at the top of `proc_handle_press`:
resolve another still-open tap-hold key as a tap. -/
def tapPreferredCell (row col timestamp : Nat) (r c : Nat) (s : KbState) :
    KbState :=
  if ¬ s.proc.pressed_key_active r c then s
  else if r = row ∧ c = col then s
  else
    let timeout := effTimeout s.proc r c
    let heldKey := s.proc.pressed_keys r c
    if s.proc.key_is_tapped r c then s
    else
      let s1 :=
        match heldKey with
        | KeyDef.layerTap tapKey _ _ =>
            if u32sub timestamp (s.proc.layer_tap_timer r c) < timeout then
              { s with
                  keyReport := (hid_add_key s.keyReport tapKey).1
                  proc :=
                    { s.proc with
                        key_is_tapped := upd2 s.proc.key_is_tapped r c true } }
            else s
        | _ => s
      match heldKey with
      | KeyDef.modTap tapKey _ _ =>
          if u32sub timestamp (s1.proc.mod_tap_timer r c) < timeout then
            { s1 with
                keyReport := (hid_add_key s1.keyReport tapKey).1
                proc :=
                  { s1.proc with
                      key_is_tapped := upd2 s1.proc.key_is_tapped r c true } }
          else s1
      | _ => s1

/-- The full row/column tap-preferred scan of `proc_handle_press`. -/
def tapPreferredScan (s : KbState) (row col timestamp : Nat) : KbState :=
  (List.range MATRIX_ROW).foldl
    (fun acc r =>
      (List.range MATRIX_COL).foldl
        (fun acc2 c => tapPreferredCell row col timestamp r c acc2) acc)
    s

/-- The `switch (key.type)` dispatch of `proc_handle_press` for
non-transparent keys (secondary half). -/
def press_dispatch (s : KbState) (key : KeyDef) (row col timestamp : Nat) :
    KbState × List CommMsg :=
  match key with
  | KeyDef.normal keycode =>
      ({ s with keyReport := (hid_add_key s.keyReport keycode).1 }, [])
  | KeyDef.consumer usage =>
      ({ s with consumerUsage := usage }, [CommMsg.consumer usage])
  | KeyDef.modifier mask =>
      ({ s with keyReport := hid_set_modifier s.keyReport mask }, [])
  | KeyDef.shifted keycode =>
      let r1 := hid_set_modifier s.keyReport HID_MOD_LEFT_SHIFT
      ({ s with keyReport := (hid_add_key r1 keycode).1 }, [])
  | KeyDef.layerTap _ _ _ =>
      ({ s with proc :=
          { s.proc with
              layer_tap_timer := upd2 s.proc.layer_tap_timer row col timestamp
              key_is_tapped := upd2 s.proc.key_is_tapped row col false } }, [])
  | KeyDef.modTap _ _ _ =>
      ({ s with proc :=
          { s.proc with
              mod_tap_timer := upd2 s.proc.mod_tap_timer row col timestamp
              key_is_tapped := upd2 s.proc.key_is_tapped row col false } }, [])
  | KeyDef.layerMomentary layer =>
      ({ s with proc := layer_activate_momentary s.proc layer }, [])
  | KeyDef.layerToggle layer =>
      let p := layer_toggle s.proc layer
      ({ s with proc := p.1 }, p.2)
  | _ => (s, [])

/-- The `for (layer = active - 1; layer >= 0; layer--)` walk of the
transparent-key cases: first non-transparent keymap entry below `active`. -/
def findLowerNonTrans : Nat → Nat → Nat → Option KeyDef
  | 0, _, _ => none
  | l + 1, row, col =>
      let k := keymap_get_key l row col
      if k = KeyDef.transparent then findLowerNonTrans l row col
      else some k

/-- Embeds `proc_handle_press`.  The self-recursion of the transparent case is
bounded: the recursive call receives the first non-transparent lower-layer
key, whose dispatch cannot recurse again; it re-runs the tap-preferred scan
and stores the lower key, and the outer call stores it once more. -/
def proc_handle_press (s : KbState) (key : KeyDef) (row col timestamp : Nat) :
    KbState × List CommMsg :=
  let s1 := tapPreferredScan s row col timestamp
  match key with
  | KeyDef.transparent =>
      match findLowerNonTrans (kb_mgt_layer_get_active s1.proc) row col with
      | some lowerKey =>
          let s2 := tapPreferredScan s1 row col timestamp
          let p := press_dispatch s2 lowerKey row col timestamp
          let s3 :=
            { p.1 with proc := proc_store_pressed_key p.1.proc row col lowerKey }
          ({ s3 with proc := proc_store_pressed_key s3.proc row col lowerKey },
           p.2)
      | none =>
          ({ s1 with
              proc := proc_store_pressed_key s1.proc row col KeyDef.transparent },
           [])
  | _ =>
      let p := press_dispatch s1 key row col timestamp
      ({ p.1 with proc := proc_store_pressed_key p.1.proc row col key }, p.2)

/-- The body of `proc_handle_release`, abstracted over the recursive call of
its transparent case (which calls `proc_handle_release` with *unchanged*
arguments and state). -/
def release_body
    (recurse : KbState → Nat → Nat → Nat → Option (KbState × List CommMsg))
    (s : KbState) (row col timestamp : Nat) :
    Option (KbState × List CommMsg) :=
      if ¬ proc_has_stored_key s.proc row col then some (s, [])
      else
        let timeout := effTimeout s.proc row col
        let storedKey := proc_get_stored_key s.proc row col
        let finish := fun (s' : KbState) (ms : List CommMsg) =>
          some ({ s' with proc := proc_clear_stored_key s'.proc row col }, ms)
        match storedKey with
        | KeyDef.normal keycode =>
            finish { s with keyReport := hid_remove_key s.keyReport keycode } []
        | KeyDef.consumer _ =>
            finish { s with consumerUsage := 0 } [CommMsg.consumer 0]
        | KeyDef.modifier mask =>
            finish { s with keyReport := hid_clear_modifier s.keyReport mask } []
        | KeyDef.shifted keycode =>
            let r1 := hid_clear_modifier s.keyReport HID_MOD_LEFT_SHIFT
            finish { s with keyReport := hid_remove_key r1 keycode } []
        | KeyDef.layerTap tapKey layer _ =>
            let isTapped := s.proc.key_is_tapped row col
            let layerIsActive := layer_is_momentary_active s.proc layer
            let holdTime := u32sub timestamp (s.proc.layer_tap_timer row col)
            let s1 :=
              if isTapped ∧ ¬ layerIsActive then
                { s with keyReport := hid_remove_key s.keyReport tapKey }
              else s
            let p2 :=
              if layerIsActive then
                ({ s1 with proc := layer_deactivate_momentary s1.proc layer },
                 [CommMsg.layerDesync layer])
              else (s1, [])
            let p3 :=
              if ¬ isTapped ∧ ¬ layerIsActive ∧ holdTime < timeout then
                let q := comm_handle_brief_tap p2.1 tapKey
                (q.1, p2.2 ++ q.2)
              else p2
            finish p3.1 p3.2
        | KeyDef.modTap tapKey holdMask _ =>
            let isTapped := s.proc.key_is_tapped row col
            let holdTime := u32sub timestamp (s.proc.mod_tap_timer row col)
            let modIsActive := Nat.land s.keyReport.modifiers holdMask ≠ 0
            let s1 :=
              if isTapped ∧ ¬ modIsActive then
                { s with keyReport := hid_remove_key s.keyReport tapKey }
              else s
            let p2 :=
              if modIsActive then
                ({ s1 with keyReport := hid_clear_modifier s1.keyReport holdMask },
                 [CommMsg.modDesync holdMask])
              else (s1, [])
            let p3 :=
              if ¬ isTapped ∧ ¬ modIsActive ∧ holdTime < timeout then
                let q := comm_handle_brief_tap p2.1 tapKey
                (q.1, p2.2 ++ q.2)
              else p2
            finish p3.1 p3.2
        | KeyDef.layerMomentary layer =>
            finish { s with proc := layer_deactivate_momentary s.proc layer } []
        | KeyDef.transparent =>
            match findLowerNonTrans (kb_mgt_layer_get_active s.proc) row col with
            | some _ =>
                (recurse s row col timestamp).map
                  (fun p =>
                    ({ p.1 with
                        proc := proc_clear_stored_key p.1.proc row col }, p.2))
            | none => finish s []
        | _ => finish s []

/-- Embeds `proc_handle_release` with explicit fuel for the self-recursion of the
transparent case.  `none` means the fuel was exhausted. -/
def proc_handle_release :
    Nat → KbState → Nat → Nat → Nat → Option (KbState × List CommMsg)
  | 0, _, _, _, _ => none
  | fuel + 1, s, row, col, timestamp =>
      release_body (proc_handle_release fuel) s row col timestamp

/-- One cell of `kb_mgt_proc_check_tap_timeouts`: resolve an expired,
still-open tap-hold key as a hold and emit the matching Sync message. -/
def sweepCell (currentTime r c : Nat) (acc : KbState × List CommMsg) :
    KbState × List CommMsg :=
  let s := acc.1
  if ¬ s.proc.pressed_key_active r c then acc
  else
    let key := s.proc.pressed_keys r c
    let isTapped := s.proc.key_is_tapped r c
    let timeout := effTimeout s.proc r c
    let layerTapElapsed :=
      u32sub currentTime (s.proc.layer_tap_timer r c) ≥ timeout
    let modTapElapsed :=
      u32sub currentTime (s.proc.mod_tap_timer r c) ≥ timeout
    match key with
    | KeyDef.layerTap _ layer _ =>
        if layerTapElapsed ∧ ¬ isTapped then
          ({ s with proc :=
              { (layer_activate_momentary s.proc layer) with
                  key_is_tapped := upd2 s.proc.key_is_tapped r c true } },
           acc.2 ++ [CommMsg.layerSync layer])
        else acc
    | KeyDef.modTap _ holdMask _ =>
        if modTapElapsed ∧ ¬ isTapped then
          ({ s with
              keyReport := hid_set_modifier s.keyReport holdMask
              proc :=
                { s.proc with
                    key_is_tapped := upd2 s.proc.key_is_tapped r c true } },
           acc.2 ++ [CommMsg.modSync holdMask])
        else acc
    | _ => acc

/-- Embeds `kb_mgt_proc_check_tap_timeouts`: the timeout sweep over every cell. -/
def kb_mgt_proc_check_tap_timeouts (s : KbState) (currentTime : Nat) :
    KbState × List CommMsg :=
  (List.range MATRIX_ROW).foldl
    (fun acc r =>
      (List.range MATRIX_COL).foldl
        (fun acc2 c => sweepCell currentTime r c acc2) acc)
    (s, [])

/-- Embeds `kb_mgt_sync_modifier` (remote `MOD_SYNC` handler): `modifiers |= m`. -/
def kb_mgt_sync_modifier (s : KbState) (mask : Nat) : KbState :=
  { s with keyReport := hid_set_modifier s.keyReport mask }

/-- Embeds `kb_mgt_desync_modifier` (remote `MOD_DESYNC` handler). -/
def kb_mgt_desync_modifier (s : KbState) (mask : Nat) : KbState :=
  { s with keyReport := hid_clear_modifier s.keyReport mask }

/-- The C `heartbeat_state_t`. -/
structure HeartbeatState where
  received : Bool
  last_req_time : Nat
  deriving Repr, DecidableEq

/-- The C `conn_state_t` of the indicator, as consumed by the heartbeat task. -/
inductive ConnState where
  | connected
  | waiting
  | sleeping
  deriving Repr, DecidableEq

/-- Escalation rank of a connection state. -/
def connRank : ConnState → Nat
  | ConnState.connected => 0
  | ConnState.waiting => 1
  | ConnState.sleeping => 2

/-- Embeds `update_heartbeat`: mark the response received and reset the request
timestamp to the current time. -/
def update_heartbeat (now : Nat) : HeartbeatState :=
  { received := true, last_req_time := now }

/-- One iteration of the heartbeat `task` loop: periodic request emission
followed by the response monitor.  Returns the new heartbeat state, the new
connection state and whether a `REQ_HEARTBEAT` was sent.  The interval check
is `uint64_t` arithmetic; `time_since_req` is truncated to `uint32_t`. -/
def heartbeat_poll (hb : HeartbeatState) (conn : ConnState) (now : Nat) :
    HeartbeatState × ConnState × Bool :=
  let p :=
    if u64sub now hb.last_req_time ≥ HEARTBEAT_INTERVAL_MS then
      (({ received := false, last_req_time := now } : HeartbeatState), true)
    else (hb, false)
  let hb1 := p.1
  let conn1 :=
    if hb1.received then ConnState.connected
    else if hb1.last_req_time > 0 then
      let timeSinceReq := (u64sub now hb1.last_req_time) % U32
      let c1 :=
        if timeSinceReq > HEARTBEAT_STABLE_MS ∧ conn = ConnState.connected then
          ConnState.waiting
        else conn
      let c2 :=
        if timeSinceReq > HEARTBEAT_TIMEOUT_MS + HEARTBEAT_STABLE_MS ∧
            c1 = ConnState.waiting then
          ConnState.sleeping
        else c1
      c2
    else conn
  (hb1, conn1, p.2)

inductive PowerMode where
  | active
  | normal
  | efficient
  | deep
  deriving Repr, DecidableEq

/-- Escalation rank of a power mode. -/
def powerRank : PowerMode → Nat
  | PowerMode.active => 0
  | PowerMode.normal => 1
  | PowerMode.efficient => 2
  | PowerMode.deep => 3

/-- The fields of `power_config_t` used by mode selection and the matrix
interval query. -/
structure PowerConfig where
  active_scan_ms : Nat
  normal_scan_ms : Nat
  efficient_scan_ms : Nat
  deep_scan_ms : Nat
  active_timeout_ms : Nat
  normal_timeout_ms : Nat
  efficient_timeout_ms : Nat
  deriving Repr, DecidableEq

/-- The `DEFAULT_CONFIG` of power_mgmt.c. -/
def DEFAULT_CONFIG : PowerConfig :=
  { active_scan_ms := 1
    normal_scan_ms := 5
    efficient_scan_ms := 25
    deep_scan_ms := 100
    active_timeout_ms := 5000
    normal_timeout_ms := 20000
    efficient_timeout_ms := 90000 }

/-- The scheduler state relevant to mode selection: current mode, the last
recorded activity time and the configuration, plus the mode-transition
counter of the metrics block. -/
structure PowerState where
  current_mode : PowerMode
  last_activity_time : Nat
  config : PowerConfig
  power_mode_transitions : Nat
  deriving Repr, DecidableEq

/-- Embeds `update_power_mode`: recompute the mode from the idle duration. -/
def update_power_mode (s : PowerState) (currentTime : Nat) : PowerState :=
  let idle := u32sub currentTime s.last_activity_time
  let newMode :=
    if idle < s.config.active_timeout_ms then PowerMode.active
    else if idle < s.config.normal_timeout_ms then PowerMode.normal
    else if idle < s.config.efficient_timeout_ms then PowerMode.efficient
    else PowerMode.deep
  if newMode ≠ s.current_mode then
    { s with
        current_mode := newMode
        power_mode_transitions := s.power_mode_transitions + 1 }
  else s

/-- Embeds `power_mgmt_notify_activity`: record the activity timestamp and switch
to active mode immediately. -/
def power_mgmt_notify_activity (s : PowerState) (timestamp : Nat) : PowerState :=
  let s1 := { s with last_activity_time := timestamp }
  if s1.current_mode ≠ PowerMode.active then
    { s1 with
        current_mode := PowerMode.active
        power_mode_transitions := s1.power_mode_transitions + 1 }
  else s1

/-- Embeds `power_mgmt_get_matrix_interval`: per-mode scan interval. -/
def power_mgmt_get_matrix_interval (s : PowerState) : Nat :=
  match s.current_mode with
  | PowerMode.active => s.config.active_scan_ms
  | PowerMode.normal => s.config.normal_scan_ms
  | PowerMode.efficient => s.config.efficient_scan_ms
  | PowerMode.deep => s.config.deep_scan_ms

/-- The decoded `espnow_event_info_data_t` payloads
(`espnow_event_info_data_type_t` message kinds). -/
inductive EspnowMsg where
  | conn (connected : Bool)
  | tap (r : HidKeyReport)
  | briefTap (r : HidKeyReport)
  | consumer (usage : Nat)
  | layerSync (layer : Nat)
  | layerDesync (layer : Nat)
  | modSync (mask : Nat)
  | modDesync (mask : Nat)
  | reqHeartbeat
  | resHeartbeat
  deriving Repr, DecidableEq

/-- The secondary-half state touched by the receive worker: keyboard state,
heartbeat state, and whether scanning/heartbeat tasks are running (the
`CONN` handler's effect). -/
structure SecondaryState where
  kb : KbState
  hb : HeartbeatState
  running : Bool

/-- One `EVENT_RECV_CB` iteration of `espnow_task` on the secondary half:
`update_heartbeat()` runs for every received message, before the dispatch
on the message kind (`TAP`/`BRIEF_TAP`/`CONSUMER` arms are master-only and
compile away; `REQ_HEARTBEAT` replies only on the master). -/
def espnow_handle_recv (st : SecondaryState) (msg : EspnowMsg) (now : Nat) :
    SecondaryState :=
  let st1 := { st with hb := update_heartbeat now }
  match msg with
  | EspnowMsg.conn b => { st1 with running := b }
  | EspnowMsg.layerSync layer =>
      { st1 with kb := { st1.kb with proc := kb_mgt_sync_layer st1.kb.proc layer } }
  | EspnowMsg.layerDesync layer =>
      { st1 with kb := { st1.kb with proc := kb_mgt_desync_layer st1.kb.proc layer } }
  | EspnowMsg.modSync mask =>
      { st1 with kb := kb_mgt_sync_modifier st1.kb mask }
  | EspnowMsg.modDesync mask =>
      { st1 with kb := kb_mgt_desync_modifier st1.kb mask }
  | EspnowMsg.resHeartbeat => { st1 with hb := update_heartbeat now }
  | _ => st1

/-- The effective layer as the specification words it: the numerically
highest layer index (over *all* layers, including layer 0) whose momentary
flag is set, else the current base layer. -/
def spec_effective_layer (s : ProcState) : Nat :=
  if s.layer_momentary_active 2 then 2
  else if s.layer_momentary_active 1 then 1
  else if s.layer_momentary_active 0 then 0
  else s.current_layer

/-- A resolver state reached through the public interface: a LayerToggle(1)
key press (`kb_mgt_process_key_event` takes the key definition from its
caller) makes the base layer 1, and a received remote `LAYER_SYNC(0)` — the
layer value is a peer-supplied byte on the unauthenticated ESP-NOW link, and
`kb_mgt_sync_layer` stores any value below `MAX_LAYERS` — sets layer 0's
momentary flag.  Afterwards layer 0 is the only momentary-active layer and
the base layer is 1. -/
def c6_state : ProcState :=
  kb_mgt_sync_layer
    (proc_handle_press initState (KeyDef.layerToggle 1) 2 2 0).1.proc 0

/-- A resolver state with momentary layers 1 and 2 both set. -/
def c6_state12 : ProcState :=
  { initState.proc with
      layer_momentary_active :=
        upd1 (upd1 initState.proc.layer_momentary_active 1 true) 2 true }

/-- The resolver state after pressing a LayerTap key at (row, col) at `t0`
from the initial state. -/
def pressedLT (tap layer tmo row col t0 : Nat) : KbState :=
  { proc :=
      { current_layer := DEFAULT_LAYER
        layer_tap_timer := upd2 (fun _ _ => 0) row col t0
        mod_tap_timer := fun _ _ => 0
        pressed_keys :=
          upd2 (fun _ _ => emptyKey) row col (KeyDef.layerTap tap layer tmo)
        key_is_tapped := upd2 (fun _ _ => false) row col false
        layer_momentary_active := fun _ => false
        pressed_key_active := upd2 (fun _ _ => false) row col true
        key_tap_timeout := fun _ _ => 0 }
    keyReport := emptyReport
    consumerUsage := 0 }

/-- The resolver state after pressing a ModTap key at (row, col) at `t0`
from the initial state. -/
def pressedMT (tap mask tmo row col t0 : Nat) : KbState :=
  { proc :=
      { current_layer := DEFAULT_LAYER
        layer_tap_timer := fun _ _ => 0
        mod_tap_timer := upd2 (fun _ _ => 0) row col t0
        pressed_keys :=
          upd2 (fun _ _ => emptyKey) row col (KeyDef.modTap tap mask tmo)
        key_is_tapped := upd2 (fun _ _ => false) row col false
        layer_momentary_active := fun _ => false
        pressed_key_active := upd2 (fun _ _ => false) row col true
        key_tap_timeout := fun _ _ => 0 }
    keyReport := emptyReport
    consumerUsage := 0 }

/-- State `pressedLT` after the timeout sweep resolved the key as a hold. -/
def heldLT (tap layer tmo row col t0 : Nat) : KbState :=
  { proc :=
      { current_layer := DEFAULT_LAYER
        layer_tap_timer := upd2 (fun _ _ => 0) row col t0
        mod_tap_timer := fun _ _ => 0
        pressed_keys :=
          upd2 (fun _ _ => emptyKey) row col (KeyDef.layerTap tap layer tmo)
        key_is_tapped :=
          upd2 (upd2 (fun _ _ => false) row col false) row col true
        layer_momentary_active := upd1 (fun _ => false) layer true
        pressed_key_active := upd2 (fun _ _ => false) row col true
        key_tap_timeout := fun _ _ => 0 }
    keyReport := emptyReport
    consumerUsage := 0 }

/-- State `pressedMT` after the timeout sweep resolved the key as a hold. -/
def heldMT (tap mask tmo row col t0 : Nat) : KbState :=
  { proc :=
      { current_layer := DEFAULT_LAYER
        layer_tap_timer := fun _ _ => 0
        mod_tap_timer := upd2 (fun _ _ => 0) row col t0
        pressed_keys :=
          upd2 (fun _ _ => emptyKey) row col (KeyDef.modTap tap mask tmo)
        key_is_tapped :=
          upd2 (upd2 (fun _ _ => false) row col false) row col true
        layer_momentary_active := fun _ => false
        pressed_key_active := upd2 (fun _ _ => false) row col true
        key_tap_timeout := fun _ _ => 0 }
    keyReport := { modifiers := Nat.lor 0 mask, keys := emptyKeys }
    consumerUsage := 0 }

/-- Pressing a Transparent key definition at (0,0) while the effective layer
is 0: the lower-layer walk is empty, so the Transparent key itself is stored
as the cell's pending key.  (`kb_mgt_process_key_event` accepts the key
definition from its caller.) -/
def c7_press : KbState × List CommMsg :=
  proc_handle_press initState KeyDef.transparent 0 0 0

/-- The state after that press followed by a remote `LAYER_SYNC(1)`
(`kb_mgt_sync_layer 1`), making layer 1 the effective layer: the pending key
at (0,0) is Transparent while layer 0 holds a non-transparent key there. -/
def c7_bad_state : KbState :=
  { c7_press.1 with proc := kb_mgt_sync_layer c7_press.1.proc 1 }

-- ===========================================================================
-- Theorems
-- ===========================================================================

theorem u32sub_eq_sub {a b : Nat} (hba : b ≤ a) (ha : a < U32) :
    u32sub a b = a - b := by
  have hb : b < U32 := lt_of_le_of_lt hba ha
  unfold u32sub
  rw [Nat.mod_eq_of_lt ha, Nat.mod_eq_of_lt hb]
  have h1 : a + (U32 - b) = (a - b) + U32 := by omega
  rw [h1, Nat.add_mod_right, Nat.mod_eq_of_lt (by omega)]

theorem u64sub_eq_sub {a b : Nat} (hba : b ≤ a) (ha : a < U64) :
    u64sub a b = a - b := by
  have hb : b < U64 := lt_of_le_of_lt hba ha
  unfold u64sub
  rw [Nat.mod_eq_of_lt ha, Nat.mod_eq_of_lt hb]
  have h1 : a + (U64 - b) = (a - b) + U64 := by omega
  rw [h1, Nat.add_mod_right, Nat.mod_eq_of_lt (by omega)]

/-- Fact `u64sub a a = 0`, used when the poll resets the request timestamp. -/
theorem u64sub_self (a : Nat) : u64sub a a = 0 := by
  unfold u64sub
  have h : a % U64 < U64 := Nat.mod_lt _ (by unfold U64; omega)
  have h1 : a % U64 + (U64 - a % U64) = U64 := by omega
  rw [h1]
  simp [U64]

/-- Facts about `Nat.land`/`Nat.lor` restated without the `HAnd`/`HOr` synonyms. -/
theorem land_zero_left (x : Nat) : Nat.land 0 x = 0 := Nat.zero_and x

theorem land_self_eq (x : Nat) : Nat.land x x = x := Nat.and_self x

theorem lor_zero_left (x : Nat) : Nat.lor 0 x = x := Nat.zero_or x

set_option maxRecDepth 4096 in
theorem land_byteNot_self : ∀ m, m < 256 → Nat.land m (byteNot m) = 0 := by
  decide

/-- A fold whose function fixes the accumulator on every element leaves the
accumulator unchanged. -/
theorem foldl_fixed_mem {α β : Type} (f : α → β → α) (s : α) :
    ∀ l : List β, (∀ x ∈ l, f s x = s) → l.foldl f s = s := by
  intro l
  induction l with
  | nil => intro _; rfl
  | cons x xs ih =>
      intro h
      have hx : f s x = s := h x (List.mem_cons_self x xs)
      simp only [List.foldl_cons, hx]
      exact ih (fun y hy => h y (List.mem_cons_of_mem x hy))

/-- Splitting `List.range` at an interior position. -/
theorem range_split (n i : Nat) (h : i < n) :
    List.range n = List.range' 0 i ++ i :: List.range' (i + 1) (n - i - 1) := by
  rw [List.range_eq_range']
  have h1 : List.range' 0 i ++ List.range' (0 + i) (n - i) = List.range' 0 n := by
    rw [List.range'_append_1]
    congr 1
    omega
  rw [← h1]
  congr 1
  have h2 : n - i = (n - i - 1) + 1 := by omega
  rw [Nat.zero_add, h2, List.range'_succ]
  simp

/-- A nested row/column fold whose cell function skips inactive cells and
never changes the activity flags reduces, on a state with a single active
cell, to the cell function applied at that cell. -/
theorem nestedFold_single {α : Type} (f : Nat → Nat → α → α)
    (active : α → Nat → Nat → Bool)
    (hskip : ∀ r c a, active a r c = false → f r c a = a)
    (hpres : ∀ r c a r' c', active (f r c a) r' c' = active a r' c')
    (row col : Nat) (hrow : row < MATRIX_ROW) (hcol : col < MATRIX_COL)
    (a0 : α) (honly : ∀ r c, ¬(r = row ∧ c = col) → active a0 r c = false) :
    (List.range MATRIX_ROW).foldl
      (fun acc r =>
        (List.range MATRIX_COL).foldl (fun acc2 c => f r c acc2) acc)
      a0 = f row col a0 := by
  have hrowfix : ∀ (a : α) (r : Nat), (∀ c, active a r c = false) →
      (List.range MATRIX_COL).foldl (fun acc2 c => f r c acc2) a = a := by
    intro a r h
    exact foldl_fixed_mem _ a _ (fun c _ => hskip r c a (h c))
  rw [range_split MATRIX_ROW row hrow, List.foldl_append, List.foldl_cons]
  have hpre : (List.range' 0 row).foldl
      (fun acc r =>
        (List.range MATRIX_COL).foldl (fun acc2 c => f r c acc2) acc) a0 = a0 := by
    apply foldl_fixed_mem
    intro r hr
    have hrlt : r < row := by
      have := (List.mem_range'_1).mp hr
      omega
    exact hrowfix a0 r (fun c => honly r c (by omega))
  rw [hpre]
  have hmid : (List.range MATRIX_COL).foldl (fun acc2 c => f row c acc2) a0 =
      f row col a0 := by
    rw [range_split MATRIX_COL col hcol, List.foldl_append, List.foldl_cons]
    have hp : (List.range' 0 col).foldl (fun acc2 c => f row c acc2) a0 = a0 := by
      apply foldl_fixed_mem
      intro c hc
      have hclt : c < col := by
        have := (List.mem_range'_1).mp hc
        omega
      exact hskip row c a0 (honly row c (by omega))
    rw [hp]
    apply foldl_fixed_mem
    intro c hc
    have hcgt : col + 1 ≤ c := by
      have := (List.mem_range'_1).mp hc
      omega
    apply hskip
    rw [hpres]
    exact honly row c (by omega)
  rw [hmid]
  apply foldl_fixed_mem
  intro r hr
  have hrgt : row + 1 ≤ r := by
    have := (List.mem_range'_1).mp hr
    omega
  apply hrowfix
  intro c
  rw [hpres]
  exact honly r c (by omega)

/-- A nested row/column fold whose cell function skips inactive cells is the
identity on a state with no active cell. -/
theorem nestedFold_noop {α : Type} (f : Nat → Nat → α → α)
    (active : α → Nat → Nat → Bool)
    (hskip : ∀ r c a, active a r c = false → f r c a = a)
    (a0 : α) (hnone : ∀ r c, active a0 r c = false) :
    (List.range MATRIX_ROW).foldl
      (fun acc r =>
        (List.range MATRIX_COL).foldl (fun acc2 c => f r c acc2) acc)
      a0 = a0 := by
  apply foldl_fixed_mem
  intro r _
  exact foldl_fixed_mem _ a0 _ (fun c _ => hskip r c a0 (hnone r c))

theorem addKeySlots_full (k : Nat) :
    ∀ l : List Nat, (∀ x ∈ l, x ≠ 0) → addKeySlots k l = (l, Result.reportFull) := by
  intro l
  induction l with
  | nil => intro _; rfl
  | cons x xs ih =>
      intro h
      have hx : x ≠ 0 := h x (List.mem_cons_self x xs)
      have hxs := ih (fun y hy => h y (List.mem_cons_of_mem x hy))
      simp [addKeySlots, hx, hxs]

theorem addKeySlots_free (k : Nat) :
    ∀ l : List Nat, 0 ∈ l →
      addKeySlots k l = (l.set (l.indexOf 0) k, Result.success) := by
  intro l
  induction l with
  | nil => intro h; cases h
  | cons x xs ih =>
      intro h
      by_cases hx : x = 0
      · subst hx
        simp [addKeySlots, List.indexOf_cons_self]
      · have hmem : 0 ∈ xs := by
          cases h with
          | head => exact absurd rfl hx
          | tail _ h' => exact h'
        have hne : x ≠ 0 := hx
        have hbe : (x == 0) = false := by
          simp [hne]
        simp [addKeySlots, hne, ih hmem, List.indexOf_cons, hbe, List.set]

/-- C8.  Adding a Normal keycode to a full key report (all six slots
non-zero) leaves the report unchanged and returns the report-full result;
when some slot is free, the keycode is placed into the first zero slot and
success is returned. -/
theorem C8_add_key_full_report :
    (∀ (r : HidKeyReport) (k : Nat), (∀ x ∈ r.keys, x ≠ 0) →
        hid_add_key r k = (r, Result.reportFull)) ∧
    (∀ (r : HidKeyReport) (k : Nat), 0 ∈ r.keys →
        hid_add_key r k =
          ({ r with keys := r.keys.set (r.keys.indexOf 0) k },
           Result.success)) := by
  constructor
  · intro r k h
    simp [hid_add_key, addKeySlots_full k r.keys h]
  · intro r k h
    simp [hid_add_key, addKeySlots_free k r.keys h]

theorem C8_add_key_full_report_witness :
    ((∀ x ∈ ({ modifiers := 0, keys := [1, 2, 3, 4, 5, 6] } : HidKeyReport).keys, x ≠ 0) ∧
      hid_add_key { modifiers := 0, keys := [1, 2, 3, 4, 5, 6] } 9 =
        ({ modifiers := 0, keys := [1, 2, 3, 4, 5, 6] }, Result.reportFull)) ∧
    (0 ∈ ({ modifiers := 0, keys := [1, 0, 3, 0, 5, 6] } : HidKeyReport).keys ∧
      hid_add_key { modifiers := 0, keys := [1, 0, 3, 0, 5, 6] } 9 =
        ({ modifiers := 0,
            keys := [1, 0, 3, 0, 5, 6].set ([1, 0, 3, 0, 5, 6].indexOf 0) 9 },
         Result.success)) :=
  ⟨⟨by decide, C8_add_key_full_report.1 _ 9 (by decide)⟩,
   ⟨by decide, C8_add_key_full_report.2 _ 9 (by decide)⟩⟩

/-- C10.  All public layer operations are no-ops for layer indices at or
beyond `MAX_LAYERS`, and all pending-key operations are no-ops (with
`false`/`empty_key` query results) for out-of-range rows or columns. -/
theorem C10_bounds_safety :
    (∀ (s : ProcState) (layer : Nat), MAX_LAYERS ≤ layer →
        layer_activate_momentary s layer = s ∧
        layer_deactivate_momentary s layer = s ∧
        layer_toggle s layer = (s, []) ∧
        kb_mgt_sync_layer s layer = s ∧
        kb_mgt_desync_layer s layer = s) ∧
    (∀ (s : ProcState) (row col : Nat) (key : KeyDef),
        MATRIX_ROW ≤ row ∨ MATRIX_COL ≤ col →
        proc_store_pressed_key s row col key = s ∧
        proc_get_stored_key s row col = emptyKey ∧
        proc_has_stored_key s row col = false ∧
        proc_clear_stored_key s row col = s) := by
  constructor
  · intro s layer h
    have h' : ¬ layer < MAX_LAYERS := by omega
    refine ⟨?_, ?_, ?_, ?_, ?_⟩ <;>
      simp [layer_activate_momentary, layer_deactivate_momentary, layer_toggle,
            kb_mgt_sync_layer, kb_mgt_desync_layer, h']
  · intro s row col key h
    have h' : ¬ (row < MATRIX_ROW ∧ col < MATRIX_COL) := by
      rcases h with h | h <;> omega
    refine ⟨?_, ?_, ?_, ?_⟩ <;>
      simp [proc_store_pressed_key, proc_get_stored_key, proc_has_stored_key,
            proc_clear_stored_key, h']

theorem C10_bounds_safety_witness :
    (MAX_LAYERS ≤ 3 ∧
      (layer_activate_momentary initState.proc 3 = initState.proc ∧
       layer_deactivate_momentary initState.proc 3 = initState.proc ∧
       layer_toggle initState.proc 3 = (initState.proc, []) ∧
       kb_mgt_sync_layer initState.proc 3 = initState.proc ∧
       kb_mgt_desync_layer initState.proc 3 = initState.proc)) ∧
    ((MATRIX_ROW ≤ 5 ∨ MATRIX_COL ≤ 2) ∧
      (proc_store_pressed_key initState.proc 5 2 (KeyDef.normal 4) = initState.proc ∧
       proc_get_stored_key initState.proc 5 2 = emptyKey ∧
       proc_has_stored_key initState.proc 5 2 = false ∧
       proc_clear_stored_key initState.proc 5 2 = initState.proc)) :=
  ⟨⟨by decide, C10_bounds_safety.1 initState.proc 3 (by decide)⟩,
   ⟨Or.inl (by decide),
    C10_bounds_safety.2 initState.proc 5 2 (KeyDef.normal 4) (Or.inl (by decide))⟩⟩

set_option maxRecDepth 100000 in
/-- C6 counterexample.  In the state `c6_state` (reached by a LayerToggle(1)
press followed by a received `LAYER_SYNC(0)`), layer 0 is the only layer
whose momentary flag is set, so the numerically highest set index is 0 and a
momentary layer *is* active — yet `kb_mgt_layer_get_active` returns the base
layer 1, not 0, because its loop stops at index 1 and never consults layer
0's flag.  `spec_effective_layer` transcribes the claim's words and returns
0 here, so the claimed equality fails at this state. -/
theorem C6_highest_momentary_counterexample :
    c6_state.layer_momentary_active 0 = true ∧
    c6_state.layer_momentary_active 1 = false ∧
    c6_state.layer_momentary_active 2 = false ∧
    c6_state.current_layer = 1 ∧
    spec_effective_layer c6_state = 0 ∧
    kb_mgt_layer_get_active c6_state = 1 ∧
    kb_mgt_layer_get_active c6_state ≠ spec_effective_layer c6_state := by
  refine ⟨by decide, by decide, by decide, by decide, by decide, by decide,
    by decide⟩

/-- C6 (amended).  `kb_mgt_layer_get_active` returns the numerically
highest *non-zero* layer index whose momentary flag is set, and the current
base layer when neither layer 1 nor layer 2 is momentary-active (even when
layer 0's flag is set: the final conjunct shows the result is invariant
under any change of layer 0's momentary flag, which the loop never
consults); in particular, with layers 1 and 2 both active it returns 2,
independent of activation order. -/
theorem C6_highest_momentary_wins :
    (∀ s : ProcState, s.layer_momentary_active 2 = true →
        kb_mgt_layer_get_active s = 2) ∧
    (∀ s : ProcState, s.layer_momentary_active 2 = false →
        s.layer_momentary_active 1 = true → kb_mgt_layer_get_active s = 1) ∧
    (∀ s : ProcState, s.layer_momentary_active 2 = false →
        s.layer_momentary_active 1 = false →
        kb_mgt_layer_get_active s = s.current_layer) ∧
    (∀ s : ProcState, s.layer_momentary_active 1 = true →
        s.layer_momentary_active 2 = true → kb_mgt_layer_get_active s = 2) ∧
    (∀ (s : ProcState) (b : Bool),
        kb_mgt_layer_get_active
          { s with
              layer_momentary_active := upd1 s.layer_momentary_active 0 b } =
          kb_mgt_layer_get_active s) := by
  have hact : ∀ s : ProcState,
      kb_mgt_layer_get_active s =
        if s.layer_momentary_active 2 then 2
        else if s.layer_momentary_active 1 then 1
        else s.current_layer := by
    intro s
    rfl
  refine ⟨?_, ?_, ?_, ?_, ?_⟩
  · intro s h1
    rw [hact]
    simp [h1]
  · intro s h1 h2
    rw [hact]
    simp [h1, h2]
  · intro s h1 h2
    rw [hact]
    simp [h1, h2]
  · intro s h1 h2
    rw [hact]
    simp [h1, h2]
  · intro s b
    rw [hact, hact]
    simp [upd1]

theorem C6_highest_momentary_wins_witness :
    (c6_state12.layer_momentary_active 1 = true ∧
     c6_state12.layer_momentary_active 2 = true ∧
     kb_mgt_layer_get_active c6_state12 = 2) ∧
    (initState.proc.layer_momentary_active 2 = false ∧
     initState.proc.layer_momentary_active 1 = false ∧
     kb_mgt_layer_get_active initState.proc = initState.proc.current_layer) :=
  ⟨⟨by decide, by decide,
    C6_highest_momentary_wins.2.2.2.1 c6_state12 (by decide) (by decide)⟩,
   ⟨by decide, by decide,
    C6_highest_momentary_wins.2.2.1 initState.proc (by decide) (by decide)⟩⟩

/-- C9.  On the secondary half, the receive-processing worker marks the
heartbeat as received (with the request timestamp reset to the current
time) for every received message of every kind, so any incoming traffic
counts as link liveness. -/
theorem C9_any_message_updates_heartbeat :
    ∀ (st : SecondaryState) (msg : EspnowMsg) (now : Nat),
      (espnow_handle_recv st msg now).hb.received = true ∧
      (espnow_handle_recv st msg now).hb.last_req_time = now := by
  intro st msg now
  cases msg <;> simp [espnow_handle_recv, update_heartbeat]

theorem layer_activate_pa (s : ProcState) (l : Nat) :
    (layer_activate_momentary s l).pressed_key_active = s.pressed_key_active := by
  unfold layer_activate_momentary
  split <;> rfl

theorem sweepCell_skip (t r c : Nat) (acc : KbState × List CommMsg)
    (h : acc.1.proc.pressed_key_active r c = false) :
    sweepCell t r c acc = acc := by
  simp [sweepCell, h]

theorem sweepCell_pa (t r c : Nat) (acc : KbState × List CommMsg) :
    (sweepCell t r c acc).1.proc.pressed_key_active =
      acc.1.proc.pressed_key_active := by
  simp only [sweepCell]
  split
  · rfl
  cases hk : acc.1.proc.pressed_keys r c <;> simp [hk] <;>
    split_ifs <;> simp [layer_activate_pa]

theorem tapPreferredCell_skip (row col t r c : Nat) (s : KbState)
    (h : s.proc.pressed_key_active r c = false) :
    tapPreferredCell row col t r c s = s := by
  simp [tapPreferredCell, h]

/-- When exactly the cell (row, col) holds a pending key, the timeout sweep
reduces to its action on that one cell. -/
theorem sweep_single (s : KbState) (t row col : Nat)
    (hrow : row < MATRIX_ROW) (hcol : col < MATRIX_COL)
    (honly : ∀ r c, ¬(r = row ∧ c = col) →
      s.proc.pressed_key_active r c = false) :
    kb_mgt_proc_check_tap_timeouts s t = sweepCell t row col (s, []) := by
  unfold kb_mgt_proc_check_tap_timeouts
  exact nestedFold_single (fun r c acc => sweepCell t r c acc)
    (fun acc r c => acc.1.proc.pressed_key_active r c)
    (fun r c a h => sweepCell_skip t r c a h)
    (fun r c a r' c' => by simp only []; rw [sweepCell_pa])
    row col hrow hcol (s, []) honly

/-- With no pending key anywhere, the tap-preferred scan does nothing. -/
theorem scan_noop (s : KbState) (rowB colB t : Nat)
    (hnone : ∀ r c, s.proc.pressed_key_active r c = false) :
    tapPreferredScan s rowB colB t = s := by
  unfold tapPreferredScan
  exact nestedFold_noop (fun r c a => tapPreferredCell rowB colB t r c a)
    (fun a r c => a.proc.pressed_key_active r c)
    (fun r c a h => tapPreferredCell_skip rowB colB t r c a h)
    s hnone

theorem initState_inactive : ∀ r c,
    initState.proc.pressed_key_active r c = false := fun _ _ => rfl

/-- Unfolds `proc_handle_press` on a non-transparent key: scan, dispatch, store. -/
theorem press_eq_nt (s : KbState) (key : KeyDef) (row col t : Nat)
    (hk : key ≠ KeyDef.transparent) :
    proc_handle_press s key row col t =
      ((let p := press_dispatch (tapPreferredScan s row col t) key row col t
        ({ p.1 with proc := proc_store_pressed_key p.1.proc row col key },
         p.2)) : KbState × List CommMsg) := by
  cases key <;> first | rfl | (exact absurd rfl hk)

/-- One fuel step of `proc_handle_release`. -/
theorem release_succ (fuel : Nat) (s : KbState) (row col t : Nat) :
    proc_handle_release (fuel + 1) s row col t =
      release_body (proc_handle_release fuel) s row col t := rfl

theorem press_lt_eq (tap layer tmo row col t0 : Nat)
    (hrow : row < MATRIX_ROW) (hcol : col < MATRIX_COL) :
    proc_handle_press initState (KeyDef.layerTap tap layer tmo) row col t0 =
      (pressedLT tap layer tmo row col t0, []) := by
  rw [press_eq_nt _ _ _ _ _ (by simp),
    scan_noop _ _ _ _ initState_inactive]
  simp [press_dispatch, proc_store_pressed_key, pressedLT, initState, hrow,
    hcol]

theorem press_mt_eq (tap mask tmo row col t0 : Nat)
    (hrow : row < MATRIX_ROW) (hcol : col < MATRIX_COL) :
    proc_handle_press initState (KeyDef.modTap tap mask tmo) row col t0 =
      (pressedMT tap mask tmo row col t0, []) := by
  rw [press_eq_nt _ _ _ _ _ (by simp),
    scan_noop _ _ _ _ initState_inactive]
  simp [press_dispatch, proc_store_pressed_key, pressedMT, initState, hrow,
    hcol]

theorem pressedLT_only (tap layer tmo row col t0 : Nat) :
    ∀ r c, ¬(r = row ∧ c = col) →
      (pressedLT tap layer tmo row col t0).proc.pressed_key_active r c =
        false := by
  intro r c hrc
  simp [pressedLT, upd2, hrc]

theorem pressedMT_only (tap mask tmo row col t0 : Nat) :
    ∀ r c, ¬(r = row ∧ c = col) →
      (pressedMT tap mask tmo row col t0).proc.pressed_key_active r c =
        false := by
  intro r c hrc
  simp [pressedMT, upd2, hrc]

theorem sweep_lt_eq (tap layer tmo row col t0 ts : Nat)
    (hrow : row < MATRIX_ROW) (hcol : col < MATRIX_COL)
    (hlay : layer < MAX_LAYERS)
    (hts : t0 ≤ ts) (htsU : ts < U32)
    (helap : DEFAULT_TIMEOUT_MS ≤ ts - t0) :
    kb_mgt_proc_check_tap_timeouts (pressedLT tap layer tmo row col t0) ts =
      (heldLT tap layer tmo row col t0, [CommMsg.layerSync layer]) := by
  rw [sweep_single _ ts row col hrow hcol (pressedLT_only tap layer tmo row col t0)]
  have hsub : u32sub ts t0 = ts - t0 := u32sub_eq_sub hts htsU
  simp [sweepCell, pressedLT, heldLT, upd2, effTimeout,
    layer_activate_momentary, hlay, hsub, helap]

theorem sweep_mt_eq (tap mask tmo row col t0 ts : Nat)
    (hrow : row < MATRIX_ROW) (hcol : col < MATRIX_COL)
    (hts : t0 ≤ ts) (htsU : ts < U32)
    (helap : DEFAULT_TIMEOUT_MS ≤ ts - t0) :
    kb_mgt_proc_check_tap_timeouts (pressedMT tap mask tmo row col t0) ts =
      (heldMT tap mask tmo row col t0, [CommMsg.modSync mask]) := by
  rw [sweep_single _ ts row col hrow hcol (pressedMT_only tap mask tmo row col t0)]
  have hsub : u32sub ts t0 = ts - t0 := u32sub_eq_sub hts htsU
  simp [sweepCell, pressedMT, heldMT, upd2, effTimeout, hid_set_modifier,
    emptyReport, hsub, helap]

theorem release_lt_tap (tap layer tmo row col t0 t : Nat)
    (hrow : row < MATRIX_ROW) (hcol : col < MATRIX_COL)
    (ht : t0 ≤ t) (htU : t < U32) (htap : t - t0 < DEFAULT_TIMEOUT_MS) :
    (proc_handle_release (MAX_LAYERS + 1) (pressedLT tap layer tmo row col t0)
        row col t).map (fun p => (p.1.keyReport, p.2)) =
      some (emptyReport,
        [CommMsg.briefTap { modifiers := 0, keys := [tap, 0, 0, 0, 0, 0] }]) := by
  rw [release_succ]
  have hsub : u32sub t t0 = t - t0 := u32sub_eq_sub ht htU
  simp [release_body, pressedLT, proc_has_stored_key, proc_get_stored_key,
    proc_clear_stored_key, effTimeout, upd2, layer_is_momentary_active,
    comm_handle_brief_tap, hid_add_key, addKeySlots, hid_remove_key,
    removeKeySlots, emptyReport, emptyKeys, hrow, hcol, hsub, htap]

theorem release_mt_tap (tap mask tmo row col t0 t : Nat)
    (hrow : row < MATRIX_ROW) (hcol : col < MATRIX_COL)
    (ht : t0 ≤ t) (htU : t < U32) (htap : t - t0 < DEFAULT_TIMEOUT_MS) :
    (proc_handle_release (MAX_LAYERS + 1) (pressedMT tap mask tmo row col t0)
        row col t).map (fun p => (p.1.keyReport, p.2)) =
      some (emptyReport,
        [CommMsg.briefTap { modifiers := 0, keys := [tap, 0, 0, 0, 0, 0] }]) := by
  rw [release_succ]
  have hsub : u32sub t t0 = t - t0 := u32sub_eq_sub ht htU
  simp [release_body, pressedMT, proc_has_stored_key, proc_get_stored_key,
    proc_clear_stored_key, effTimeout, upd2, comm_handle_brief_tap,
    hid_add_key, addKeySlots, hid_remove_key, removeKeySlots, emptyReport,
    emptyKeys, land_zero_left, hrow, hcol, hsub, htap]

theorem release_lt_hold (tap layer tmo row col t0 t : Nat)
    (hrow : row < MATRIX_ROW) (hcol : col < MATRIX_COL)
    (hlay : layer < MAX_LAYERS) :
    (proc_handle_release (MAX_LAYERS + 1) (heldLT tap layer tmo row col t0)
        row col t).map (fun p => (p.1.keyReport, p.2)) =
      some (emptyReport, [CommMsg.layerDesync layer]) := by
  rw [release_succ]
  simp [release_body, heldLT, proc_has_stored_key, proc_get_stored_key,
    proc_clear_stored_key, effTimeout, upd2, upd1, layer_is_momentary_active,
    layer_deactivate_momentary, hlay, hrow, hcol]

theorem release_mt_hold (tap mask tmo row col t0 t : Nat)
    (hrow : row < MATRIX_ROW) (hcol : col < MATRIX_COL)
    (hmask : mask ≠ 0) (hm8 : mask < 256) :
    (proc_handle_release (MAX_LAYERS + 1) (heldMT tap mask tmo row col t0)
        row col t).map (fun p => (p.1.keyReport, p.2)) =
      some (emptyReport, [CommMsg.modDesync mask]) := by
  rw [release_succ]
  have hact : Nat.land (Nat.lor 0 mask) mask = mask := by
    rw [lor_zero_left, land_self_eq]
  have hclr : Nat.land (Nat.lor 0 mask) (byteNot mask) = 0 := by
    rw [lor_zero_left]
    exact land_byteNot_self mask hm8
  simp [release_body, heldMT, proc_has_stored_key, proc_get_stored_key,
    proc_clear_stored_key, effTimeout, upd2, hid_clear_modifier,
    hid_remove_key, removeKeySlots, hact, hclr, hmask, emptyReport, emptyKeys,
    hrow, hcol]

/-- C1.  LayerTap/ModTap tap-versus-hold from the idle state, with no
interrupting press.  Quick release (`t - t0` below the effective timeout,
here the default since no per-cell override is ever stored): the press
emits nothing, and the release emits exactly one `BRIEF_TAP` (the tap key
inserted into and removed from the key report, which ends empty again) and
no Sync/Desync.  Hold (sweep at `ts` with `ts - t0` at or beyond the
timeout): the sweep emits exactly one `LAYER_SYNC`/`MOD_SYNC`, the release
emits exactly one `LAYER_DESYNC`/`MOD_DESYNC`, and the tap key never
enters the key slots. -/
theorem C1_tap_vs_hold :
    (∀ tap layer tmo row col t0 t : Nat,
      row < MATRIX_ROW → col < MATRIX_COL →
      t0 ≤ t → t < U32 → t - t0 < DEFAULT_TIMEOUT_MS →
      (proc_handle_press initState
          (KeyDef.layerTap tap layer tmo) row col t0).2 = [] ∧
      (proc_handle_press initState
          (KeyDef.layerTap tap layer tmo) row col t0).1.keyReport =
        emptyReport ∧
      (proc_handle_release (MAX_LAYERS + 1)
          (proc_handle_press initState
            (KeyDef.layerTap tap layer tmo) row col t0).1 row col t).map
        (fun p => (p.1.keyReport, p.2)) =
        some (emptyReport,
          [CommMsg.briefTap { modifiers := 0, keys := [tap, 0, 0, 0, 0, 0] }])) ∧
    (∀ tap mask tmo row col t0 t : Nat,
      row < MATRIX_ROW → col < MATRIX_COL →
      t0 ≤ t → t < U32 → t - t0 < DEFAULT_TIMEOUT_MS →
      (proc_handle_press initState
          (KeyDef.modTap tap mask tmo) row col t0).2 = [] ∧
      (proc_handle_press initState
          (KeyDef.modTap tap mask tmo) row col t0).1.keyReport =
        emptyReport ∧
      (proc_handle_release (MAX_LAYERS + 1)
          (proc_handle_press initState
            (KeyDef.modTap tap mask tmo) row col t0).1 row col t).map
        (fun p => (p.1.keyReport, p.2)) =
        some (emptyReport,
          [CommMsg.briefTap { modifiers := 0, keys := [tap, 0, 0, 0, 0, 0] }])) ∧
    (∀ tap layer tmo row col t0 ts t : Nat,
      row < MATRIX_ROW → col < MATRIX_COL → layer < MAX_LAYERS →
      t0 ≤ ts → ts < U32 → DEFAULT_TIMEOUT_MS ≤ ts - t0 →
      (proc_handle_press initState
          (KeyDef.layerTap tap layer tmo) row col t0).2 = [] ∧
      (kb_mgt_proc_check_tap_timeouts
          (proc_handle_press initState
            (KeyDef.layerTap tap layer tmo) row col t0).1 ts).2 =
        [CommMsg.layerSync layer] ∧
      (kb_mgt_proc_check_tap_timeouts
          (proc_handle_press initState
            (KeyDef.layerTap tap layer tmo) row col t0).1 ts).1.keyReport =
        emptyReport ∧
      (proc_handle_release (MAX_LAYERS + 1)
          (kb_mgt_proc_check_tap_timeouts
            (proc_handle_press initState
              (KeyDef.layerTap tap layer tmo) row col t0).1 ts).1
          row col t).map (fun p => (p.1.keyReport, p.2)) =
        some (emptyReport, [CommMsg.layerDesync layer])) ∧
    (∀ tap mask tmo row col t0 ts t : Nat,
      row < MATRIX_ROW → col < MATRIX_COL → mask ≠ 0 → mask < 256 →
      t0 ≤ ts → ts < U32 → DEFAULT_TIMEOUT_MS ≤ ts - t0 →
      (proc_handle_press initState
          (KeyDef.modTap tap mask tmo) row col t0).2 = [] ∧
      (kb_mgt_proc_check_tap_timeouts
          (proc_handle_press initState
            (KeyDef.modTap tap mask tmo) row col t0).1 ts).2 =
        [CommMsg.modSync mask] ∧
      (kb_mgt_proc_check_tap_timeouts
          (proc_handle_press initState
            (KeyDef.modTap tap mask tmo) row col t0).1 ts).1.keyReport.keys =
        emptyKeys ∧
      (proc_handle_release (MAX_LAYERS + 1)
          (kb_mgt_proc_check_tap_timeouts
            (proc_handle_press initState
              (KeyDef.modTap tap mask tmo) row col t0).1 ts).1
          row col t).map (fun p => (p.1.keyReport, p.2)) =
        some (emptyReport, [CommMsg.modDesync mask])) := by
  refine ⟨?_, ?_, ?_, ?_⟩
  · intro tap layer tmo row col t0 t hrow hcol ht htU htap
    rw [press_lt_eq tap layer tmo row col t0 hrow hcol]
    exact ⟨rfl, rfl, release_lt_tap tap layer tmo row col t0 t hrow hcol ht htU htap⟩
  · intro tap mask tmo row col t0 t hrow hcol ht htU htap
    rw [press_mt_eq tap mask tmo row col t0 hrow hcol]
    exact ⟨rfl, rfl, release_mt_tap tap mask tmo row col t0 t hrow hcol ht htU htap⟩
  · intro tap layer tmo row col t0 ts t hrow hcol hlay hts htsU helap
    rw [press_lt_eq tap layer tmo row col t0 hrow hcol]
    simp only
    rw [sweep_lt_eq tap layer tmo row col t0 ts hrow hcol hlay hts htsU helap]
    exact ⟨trivial, rfl, rfl,
      release_lt_hold tap layer tmo row col t0 t hrow hcol hlay⟩
  · intro tap mask tmo row col t0 ts t hrow hcol hmask hm8 hts htsU helap
    rw [press_mt_eq tap mask tmo row col t0 hrow hcol]
    simp only
    rw [sweep_mt_eq tap mask tmo row col t0 ts hrow hcol hts htsU helap]
    exact ⟨trivial, rfl, rfl,
      release_mt_hold tap mask tmo row col t0 t hrow hcol hmask hm8⟩

theorem C1_tap_vs_hold_witness :
    ((4 : Nat) < MATRIX_ROW ∧ (5 : Nat) < MATRIX_COL ∧ (0 : Nat) ≤ 80 ∧
      (80 : Nat) < U32 ∧ (80 : Nat) - 0 < DEFAULT_TIMEOUT_MS ∧
      (proc_handle_release (MAX_LAYERS + 1)
          (proc_handle_press initState
            (KeyDef.layerTap 43 1 0) 4 5 0).1 4 5 80).map
        (fun p => (p.1.keyReport, p.2)) =
        some (emptyReport,
          [CommMsg.briefTap { modifiers := 0, keys := [43, 0, 0, 0, 0, 0] }])) ∧
    ((1 : Nat) < MAX_LAYERS ∧ DEFAULT_TIMEOUT_MS ≤ (120 : Nat) - 0 ∧
      (kb_mgt_proc_check_tap_timeouts
          (proc_handle_press initState
            (KeyDef.layerTap 43 1 0) 4 5 0).1 120).2 = [CommMsg.layerSync 1] ∧
      (proc_handle_release (MAX_LAYERS + 1)
          (kb_mgt_proc_check_tap_timeouts
            (proc_handle_press initState
              (KeyDef.layerTap 43 1 0) 4 5 0).1 120).1 4 5 200).map
        (fun p => (p.1.keyReport, p.2)) =
        some (emptyReport, [CommMsg.layerDesync 1])) ∧
    ((8 : Nat) ≠ 0 ∧ (8 : Nat) < 256 ∧
      (kb_mgt_proc_check_tap_timeouts
          (proc_handle_press initState
            (KeyDef.modTap 44 8 0) 4 5 0).1 120).2 = [CommMsg.modSync 8] ∧
      (proc_handle_release (MAX_LAYERS + 1)
          (kb_mgt_proc_check_tap_timeouts
            (proc_handle_press initState
              (KeyDef.modTap 44 8 0) 4 5 0).1 120).1 4 5 200).map
        (fun p => (p.1.keyReport, p.2)) =
        some (emptyReport, [CommMsg.modDesync 8])) :=
  ⟨⟨by decide, by decide, by decide, by decide, by decide,
    (C1_tap_vs_hold.1 43 1 0 4 5 0 80 (by decide) (by decide) (by decide)
      (by decide) (by decide)).2.2⟩,
   ⟨by decide, by decide,
    (C1_tap_vs_hold.2.2.1 43 1 0 4 5 0 120 200 (by decide) (by decide)
      (by decide) (by decide) (by decide) (by decide)).2.1,
    (C1_tap_vs_hold.2.2.1 43 1 0 4 5 0 120 200 (by decide) (by decide)
      (by decide) (by decide) (by decide) (by decide)).2.2.2⟩,
   ⟨by decide, by decide,
    (C1_tap_vs_hold.2.2.2 44 8 0 4 5 0 120 200 (by decide) (by decide)
      (by decide) (by decide) (by decide) (by decide) (by decide)).2.1,
    (C1_tap_vs_hold.2.2.2 44 8 0 4 5 0 120 200 (by decide) (by decide)
      (by decide) (by decide) (by decide) (by decide) (by decide)).2.2.2⟩⟩

/-- One unfolding of the release at the bad state: the stored key is
Transparent and `findLowerNonTrans` finds layer 0's non-transparent key, so
the handler recurses with unchanged state and arguments. -/
theorem c7_release_step (n t : Nat) :
    proc_handle_release (n + 1) c7_bad_state 0 0 t =
      (proc_handle_release n c7_bad_state 0 0 t).map
        (fun p =>
          ({ p.1 with proc := proc_clear_stored_key p.1.proc 0 0 }, p.2)) :=
  rfl

/-- C7 (code bug).  Releasing the Transparent pending key at (0,0) in
`c7_bad_state` never terminates: the transparent case of
`proc_handle_release` calls itself with unchanged state, so no amount of
fuel suffices — the C code recurses forever, contradicting the claimed
MAX_LAYERS bound.  The state is reached through public operations (press of
a Transparent definition at effective layer 0, then a remote LayerSync). -/
theorem C7_transparent_release_diverges :
    proc_get_stored_key c7_bad_state.proc 0 0 = KeyDef.transparent ∧
    ∀ (fuel t : Nat), proc_handle_release fuel c7_bad_state 0 0 t = none := by
  constructor
  · decide
  · intro fuel
    induction fuel with
    | zero => intro t; rfl
    | succ n ih =>
        intro t
        rw [c7_release_step n t, ih t]
        rfl

/-- The mode computed by `update_power_mode` is the threshold classification
of the idle duration, regardless of the current mode. -/
theorem update_power_mode_mode (s : PowerState) (now : Nat) :
    (update_power_mode s now).current_mode =
      if u32sub now s.last_activity_time < s.config.active_timeout_ms then
        PowerMode.active
      else if u32sub now s.last_activity_time < s.config.normal_timeout_ms then
        PowerMode.normal
      else if u32sub now s.last_activity_time < s.config.efficient_timeout_ms then
        PowerMode.efficient
      else PowerMode.deep := by
  simp only [update_power_mode]
  split_ifs <;> simp_all

/-- C5.  With the default thresholds {5000, 20000, 90000} ms the power mode
is the threshold classification of the idle time (Active below 5000,
Normal in [5000, 20000), Efficient in [20000, 90000), Deep from 90000),
it is monotone in the idle time (continuous idling never moves backward),
`power_mgmt_notify_activity` forces Active immediately, and the matrix
interval right after activity — including after the next scheduler tick
within the Active window — is the Active scan interval. -/
theorem C5_power_mode_escalation :
    (∀ (s : PowerState) (now : Nat), s.config = DEFAULT_CONFIG →
        u32sub now s.last_activity_time < 5000 →
        (update_power_mode s now).current_mode = PowerMode.active) ∧
    (∀ (s : PowerState) (now : Nat), s.config = DEFAULT_CONFIG →
        5000 ≤ u32sub now s.last_activity_time →
        u32sub now s.last_activity_time < 20000 →
        (update_power_mode s now).current_mode = PowerMode.normal) ∧
    (∀ (s : PowerState) (now : Nat), s.config = DEFAULT_CONFIG →
        20000 ≤ u32sub now s.last_activity_time →
        u32sub now s.last_activity_time < 90000 →
        (update_power_mode s now).current_mode = PowerMode.efficient) ∧
    (∀ (s : PowerState) (now : Nat), s.config = DEFAULT_CONFIG →
        90000 ≤ u32sub now s.last_activity_time →
        (update_power_mode s now).current_mode = PowerMode.deep) ∧
    (∀ (s : PowerState) (now1 now2 : Nat), s.config = DEFAULT_CONFIG →
        s.last_activity_time ≤ now1 → now1 ≤ now2 → now2 < U32 →
        powerRank (update_power_mode s now1).current_mode ≤
          powerRank (update_power_mode s now2).current_mode) ∧
    (∀ (s : PowerState) (t : Nat),
        (power_mgmt_notify_activity s t).current_mode = PowerMode.active ∧
        power_mgmt_get_matrix_interval (power_mgmt_notify_activity s t) =
          s.config.active_scan_ms) ∧
    (∀ (s : PowerState) (t now : Nat), s.config = DEFAULT_CONFIG →
        t ≤ now → now < U32 → now - t < 5000 →
        power_mgmt_get_matrix_interval
            (update_power_mode (power_mgmt_notify_activity s t) now) =
          DEFAULT_CONFIG.active_scan_ms) := by
  have hchar : ∀ (s : PowerState) (now : Nat), s.config = DEFAULT_CONFIG →
      (update_power_mode s now).current_mode =
        if u32sub now s.last_activity_time < 5000 then PowerMode.active
        else if u32sub now s.last_activity_time < 20000 then PowerMode.normal
        else if u32sub now s.last_activity_time < 90000 then PowerMode.efficient
        else PowerMode.deep := by
    intro s now hcfg
    rw [update_power_mode_mode, hcfg]
    rfl
  refine ⟨?_, ?_, ?_, ?_, ?_, ?_, ?_⟩
  · intro s now hcfg h
    rw [hchar s now hcfg, if_pos h]
  · intro s now hcfg h1 h2
    rw [hchar s now hcfg, if_neg (by omega), if_pos h2]
  · intro s now hcfg h1 h2
    rw [hchar s now hcfg, if_neg (by omega), if_neg (by omega), if_pos h2]
  · intro s now hcfg h
    rw [hchar s now hcfg, if_neg (by omega), if_neg (by omega),
        if_neg (by omega)]
  · intro s now1 now2 hcfg h1 h12 h2
    rw [hchar s now1 hcfg, hchar s now2 hcfg,
        u32sub_eq_sub h1 (by omega), u32sub_eq_sub (le_trans h1 h12) h2]
    have hle : now1 - s.last_activity_time ≤ now2 - s.last_activity_time := by
      omega
    split_ifs <;> simp [powerRank] <;> omega
  · intro s t
    constructor
    · simp only [power_mgmt_notify_activity]
      split_ifs <;> simp_all
    · simp only [power_mgmt_get_matrix_interval, power_mgmt_notify_activity]
      split_ifs <;> simp_all
  · intro s t now hcfg ht hnow hidle
    have hcfg' : (power_mgmt_notify_activity s t).config = DEFAULT_CONFIG := by
      simp only [power_mgmt_notify_activity]
      split_ifs <;> simp_all
    have hla : (power_mgmt_notify_activity s t).last_activity_time = t := by
      simp only [power_mgmt_notify_activity]
      split_ifs <;> simp_all
    have hmode :
        (update_power_mode (power_mgmt_notify_activity s t) now).current_mode =
          PowerMode.active := by
      rw [hchar _ now hcfg', hla, u32sub_eq_sub ht hnow, if_pos hidle]
    have hcfg2 : (update_power_mode (power_mgmt_notify_activity s t) now).config
        = DEFAULT_CONFIG := by
      simp only [update_power_mode]
      split_ifs <;> simp_all
    simp only [power_mgmt_get_matrix_interval]
    rw [hmode, hcfg2]

/-- C4.  One poll cycle of the secondary-half heartbeat task never moves the
connection state backward while no response has arrived; it enters Waiting
from Connected only after more than `HEARTBEAT_STABLE_MS` of awaiting, it
enters Sleeping from Waiting only after more than
`HEARTBEAT_TIMEOUT_MS + HEARTBEAT_STABLE_MS`, and a fresh heartbeat
response (`update_heartbeat`) followed by a poll within the request
interval returns the state directly to Connected, whatever it was. -/
theorem C4_heartbeat_one_way_escalation :
    (∀ (hb : HeartbeatState) (conn : ConnState) (now : Nat),
        hb.received = false →
        connRank conn ≤ connRank (heartbeat_poll hb conn now).2.1) ∧
    (∀ (hb : HeartbeatState) (conn : ConnState) (now : Nat),
        hb.last_req_time ≤ now → now < U32 →
        conn = ConnState.connected →
        (heartbeat_poll hb conn now).2.1 = ConnState.waiting →
        HEARTBEAT_STABLE_MS < now - hb.last_req_time) ∧
    (∀ (hb : HeartbeatState) (conn : ConnState) (now : Nat),
        hb.last_req_time ≤ now → now < U32 →
        conn = ConnState.waiting →
        (heartbeat_poll hb conn now).2.1 = ConnState.sleeping →
        HEARTBEAT_TIMEOUT_MS + HEARTBEAT_STABLE_MS < now - hb.last_req_time) ∧
    (∀ (conn : ConnState) (tResp now : Nat),
        tResp ≤ now → now < U32 → now - tResp < HEARTBEAT_INTERVAL_MS →
        (heartbeat_poll (update_heartbeat tResp) conn now).2.1 =
          ConnState.connected) := by
  refine ⟨?_, ?_, ?_, ?_⟩
  · intro hb conn now hrecv
    simp only [heartbeat_poll, hrecv]
    split_ifs <;> simp_all [connRank]
  · intro hb conn now hle hnow hconn hres
    have hU : now < U64 := by
      have : U32 < U64 := by decide
      omega
    have hsub : u64sub now hb.last_req_time = now - hb.last_req_time :=
      u64sub_eq_sub hle hU
    have hmod : (now - hb.last_req_time) % U32 = now - hb.last_req_time :=
      Nat.mod_eq_of_lt (by omega)
    subst hconn
    by_contra hlt
    simp only [heartbeat_poll, hsub, hmod] at hres
    split_ifs at hres <;>
      (try simp_all [u64sub_self, U32, HEARTBEAT_STABLE_MS,
         HEARTBEAT_TIMEOUT_MS, HEARTBEAT_INTERVAL_MS]) <;> omega
  · intro hb conn now hle hnow hconn hres
    have hU : now < U64 := by
      have : U32 < U64 := by decide
      omega
    have hsub : u64sub now hb.last_req_time = now - hb.last_req_time :=
      u64sub_eq_sub hle hU
    have hmod : (now - hb.last_req_time) % U32 = now - hb.last_req_time :=
      Nat.mod_eq_of_lt (by omega)
    subst hconn
    by_contra hlt
    simp only [heartbeat_poll, hsub, hmod] at hres
    split_ifs at hres <;>
      (try simp_all [u64sub_self, U32, HEARTBEAT_STABLE_MS,
         HEARTBEAT_TIMEOUT_MS, HEARTBEAT_INTERVAL_MS]) <;> omega
  · intro conn tResp now hle hnow hint
    have hU : now < U64 := by
      have : U32 < U64 := by decide
      omega
    have hsub : u64sub now tResp = now - tResp := u64sub_eq_sub hle hU
    have hno : ¬ HEARTBEAT_INTERVAL_MS ≤ u64sub now tResp := by
      rw [hsub]
      unfold HEARTBEAT_INTERVAL_MS at hint ⊢
      omega
    simp only [heartbeat_poll, update_heartbeat]
    rw [if_neg hno]
    simp

theorem C4_heartbeat_one_way_escalation_witness :
    (({ received := false, last_req_time := 500 } : HeartbeatState).received =
        false ∧
      connRank ConnState.connected ≤
        connRank
          (heartbeat_poll { received := false, last_req_time := 500 }
            ConnState.connected 1501).2.1) ∧
    ((heartbeat_poll { received := false, last_req_time := 500 }
        ConnState.connected 1501).2.1 = ConnState.waiting →
      HEARTBEAT_STABLE_MS < 1501 - 500) ∧
    ((heartbeat_poll { received := false, last_req_time := 500 }
        ConnState.waiting 12000).2.1 = ConnState.sleeping →
      HEARTBEAT_TIMEOUT_MS + HEARTBEAT_STABLE_MS < 12000 - 500) ∧
    (heartbeat_poll (update_heartbeat 100) ConnState.sleeping 600).2.1 =
      ConnState.connected :=
  ⟨⟨rfl,
    C4_heartbeat_one_way_escalation.1 { received := false, last_req_time := 500 }
      ConnState.connected 1501 rfl⟩,
   C4_heartbeat_one_way_escalation.2.1 { received := false, last_req_time := 500 }
     ConnState.connected 1501 (by decide) (by decide) rfl,
   C4_heartbeat_one_way_escalation.2.2.1
     { received := false, last_req_time := 500 } ConnState.waiting 12000
     (by decide) (by decide) rfl,
   C4_heartbeat_one_way_escalation.2.2.2 ConnState.sleeping 100 600 (by decide)
     (by decide) (by decide)⟩

theorem C5_power_mode_escalation_witness :
    (({ current_mode := PowerMode.deep, last_activity_time := 0,
        config := DEFAULT_CONFIG, power_mode_transitions := 0 } :
          PowerState).config = DEFAULT_CONFIG ∧
      (5000 ≤ u32sub 7000 0 ∧ u32sub 7000 0 < 20000) ∧
      (update_power_mode
          { current_mode := PowerMode.deep, last_activity_time := 0,
            config := DEFAULT_CONFIG, power_mode_transitions := 0 } 7000
        ).current_mode = PowerMode.normal) ∧
    ((power_mgmt_notify_activity
        { current_mode := PowerMode.deep, last_activity_time := 0,
          config := DEFAULT_CONFIG, power_mode_transitions := 0 } 7000
      ).current_mode = PowerMode.active) ∧
    power_mgmt_get_matrix_interval
        (update_power_mode
          (power_mgmt_notify_activity
            { current_mode := PowerMode.deep, last_activity_time := 0,
              config := DEFAULT_CONFIG, power_mode_transitions := 0 } 7000)
          8000) = DEFAULT_CONFIG.active_scan_ms :=
  ⟨⟨rfl, ⟨by decide, by decide⟩,
    C5_power_mode_escalation.2.1 _ 7000 rfl (by decide) (by decide)⟩,
   (C5_power_mode_escalation.2.2.2.2.2.1 _ 7000).1,
   C5_power_mode_escalation.2.2.2.2.2.2 _ 7000 8000 rfl (by decide)
     (by decide) (by decide)⟩

end Cure

